import Mathlib

/-
Verification of the interaction/state engine and adaptive rendering
controller of the JJ Enterprises immersive 3D box experience.

The embedding follows the source:
  * BoxExperience (constructor, initThree, setupBoxAnimations,
    setupInsideBoxControls, setupEventListeners) for the Closed/Open/Inside
    experience state, the dual-camera rig and the input routing;
  * ResponsiveHandler (handleTap, adjustQualityBasedOnPerformance) for the
    touch tap path and the adaptive quality controller;
  * PerformanceOptimizer (setupCulling/updateCulling) for frustum culling
    and distance-based level-of-detail selection.

GSAP timelines are modelled by their callback structure: a call to a
transition operation first evaluates the guard; if the guard passes, a
timeline is created whose onStart handler runs at the first tick, whose
onUpdate handler runs once per progress sample (progress is a rational in
[0,1]), and whose onComplete handler runs at the end.  A transition run is
therefore: guard, onStart, a fold of onUpdate over the progress samples,
onComplete.  Nothing in the modelled handlers dispatches a DOM event, which
the `events` field of the state records faithfully.
-/

namespace JJBox

/-- The two cameras of the rig created in BoxExperience.initThree; the
`activeCamera` reference always holds one of them. -/
inductive Cam
  | external
  | internal
deriving DecidableEq

/-- The mutable experience state held on the BoxExperience object:
`isBoxOpen` and `isInsideBox` (constructor), `interactionEnabled`
(constructor), `controlsEnabled` (OrbitControls.enabled, initThree),
`interiorLightVisible` (setupLighting), `activeCamera` (initThree), and
`events`, the list of DOM event names the experience code has dispatched. -/
structure Exp where
  isBoxOpen : Bool
  isInsideBox : Bool
  interactionEnabled : Bool
  controlsEnabled : Bool
  interiorLightVisible : Bool
  activeCamera : Cam
  events : List String
deriving DecidableEq

/-- State right after the BoxExperience constructor: box closed, not inside,
interaction enabled, orbit controls enabled, interior light hidden, external
camera active, no events dispatched. -/
def initialState : Exp :=
  { isBoxOpen := false
    isInsideBox := false
    interactionEnabled := true
    controlsEnabled := true
    interiorLightVisible := false
    activeCamera := Cam.external
    events := [] }

/-- onStart of the open timeline: disables interaction and orbit controls. -/
def open_onStart (s : Exp) : Exp :=
  { s with interactionEnabled := false, controlsEnabled := false }

/-- onComplete of the open timeline: sets isBoxOpen, shows the interior
light, re-enables interaction. -/
def open_onComplete (s : Exp) : Exp :=
  { s with isBoxOpen := true
           interiorLightVisible := true
           interactionEnabled := true }

/-- boxAnimations.open run to completion: guard `if (this.isBoxOpen) return`,
then the timeline handlers (the open tween has no onUpdate logic). -/
def openRun (s : Exp) : Exp :=
  if s.isBoxOpen then s else open_onComplete (open_onStart s)

/-- Number of GSAP timelines created by one call to boxAnimations.open: one
exactly when the guard `if (this.isBoxOpen) return` passes.  The call itself
mutates no state: isBoxOpen is only assigned in onComplete, and onStart does
not fire until the first tick after the call. -/
def openTimelinesStarted (s : Exp) : Nat :=
  if s.isBoxOpen then 0 else 1

/-- Number of timelines created by `open(); open();` called synchronously:
both calls evaluate the guard against the same state, because no handler of
the first timeline has run yet at the time of the second call. -/
def openCalledTwiceTimelines (s : Exp) : Nat :=
  openTimelinesStarted s + openTimelinesStarted s

/-- Final state after the two overlapping open timelines created by a
synchronous double call both run to completion (each fires its own onStart
and onComplete). -/
def openRunBoth (s : Exp) : Exp :=
  if s.isBoxOpen then s
  else open_onComplete (open_onComplete (open_onStart (open_onStart s)))

/-- onStart of the enterBox timeline: disables interaction and orbit
controls. -/
def enterBox_onStart (s : Exp) : Exp :=
  { s with interactionEnabled := false, controlsEnabled := false }

/-- onUpdate of the enterBox timeline at one progress sample:
`if (progress > 0.5 && this.activeCamera !== this.internalCamera)
   this.activeCamera = this.internalCamera`. -/
def enterBox_onUpdate (s : Exp) (progress : ℚ) : Exp :=
  if progress > 1/2 ∧ s.activeCamera ≠ Cam.internal then
    { s with activeCamera := Cam.internal }
  else s

/-- onComplete of the enterBox timeline: sets isInsideBox, re-enables
interaction, and calls setupInsideBoxControls, which sets
controls.enabled = false. -/
def enterBox_onComplete (s : Exp) : Exp :=
  { s with isInsideBox := true
           interactionEnabled := true
           controlsEnabled := false }

/-- boxAnimations.enterBox run to completion over a list of progress
samples: guard `if (this.isInsideBox) return`, then onStart, the onUpdate
fold, onComplete. -/
def enterBoxRun (s : Exp) (samples : List ℚ) : Exp :=
  if s.isInsideBox then s
  else enterBox_onComplete (samples.foldl enterBox_onUpdate (enterBox_onStart s))

/-- onStart of the exitBox timeline: disables interaction (the orbit
controls are left as they are). -/
def exitBox_onStart (s : Exp) : Exp :=
  { s with interactionEnabled := false }

/-- onUpdate of the exitBox timeline at one progress sample:
`if (progress > 0.5 && this.activeCamera !== this.externalCamera) {
   this.activeCamera = this.externalCamera; this.controls.enabled = true; }`. -/
def exitBox_onUpdate (s : Exp) (progress : ℚ) : Exp :=
  if progress > 1/2 ∧ s.activeCamera ≠ Cam.external then
    { s with activeCamera := Cam.external, controlsEnabled := true }
  else s

/-- onComplete of the exitBox timeline: clears isInsideBox and re-enables
interaction. -/
def exitBox_onComplete (s : Exp) : Exp :=
  { s with isInsideBox := false, interactionEnabled := true }

/-- boxAnimations.exitBox run to completion over a list of progress samples:
guard `if (!this.isInsideBox) return`, then onStart, the onUpdate fold,
onComplete. -/
def exitBoxRun (s : Exp) (samples : List ℚ) : Exp :=
  if s.isInsideBox then
    exitBox_onComplete (samples.foldl exitBox_onUpdate (exitBox_onStart s))
  else s

/-- State after the box has been opened from the initial state. -/
def openState : Exp :=
  openRun initialState

/-- State after opening the box and entering it (one progress sample at 1,
which is past the 0.5 camera-swap threshold). -/
def insideState : Exp :=
  enterBoxRun openState [1]

lemma ext_ne_int : Cam.external ≠ Cam.internal := fun h => Cam.noConfusion h

lemma int_ne_ext : Cam.internal ≠ Cam.external := fun h => Cam.noConfusion h

lemma openState_val : openState =
    { isBoxOpen := true, isInsideBox := false, interactionEnabled := true,
      controlsEnabled := false, interiorLightVisible := true,
      activeCamera := Cam.external, events := [] } := rfl

lemma insideState_val : insideState =
    { isBoxOpen := true, isInsideBox := true, interactionEnabled := true,
      controlsEnabled := false, interiorLightVisible := true,
      activeCamera := Cam.internal, events := [] } := by
  unfold insideState enterBoxRun
  rw [openState_val]
  norm_num [enterBox_onStart, enterBox_onUpdate, enterBox_onComplete, ext_ne_int]

lemma any_cons_of_pos {p : ℚ} (rest : List ℚ) (hp : p > 1/2) :
    ((p :: rest).any (fun q => decide (q > 1/2))) = true := by
  rw [List.any_cons, decide_eq_true hp, Bool.true_or]

lemma any_cons_of_neg {p : ℚ} (rest : List ℚ) (hp : ¬p > 1/2) :
    ((p :: rest).any (fun q => decide (q > 1/2))) =
      (rest.any (fun q => decide (q > 1/2))) := by
  rw [List.any_cons, decide_eq_false hp, Bool.false_or]

lemma enterBox_foldl_of_internal (samples : List ℚ) (s : Exp)
    (h : s.activeCamera = Cam.internal) :
    samples.foldl enterBox_onUpdate s = s := by
  induction samples generalizing s with
  | nil => rfl
  | cons p rest ih =>
      have hu : enterBox_onUpdate s p = s := by
        simp only [enterBox_onUpdate]
        rw [if_neg]
        intro hc
        exact hc.2 h
      rw [List.foldl_cons, hu, ih s h]

lemma enterBox_foldl_of_external (samples : List ℚ) (s : Exp)
    (h : s.activeCamera = Cam.external) :
    samples.foldl enterBox_onUpdate s =
      (if samples.any (fun p => decide (p > 1/2)) then
        { s with activeCamera := Cam.internal } else s) := by
  induction samples generalizing s with
  | nil => simp
  | cons p rest ih =>
      by_cases hp : p > 1/2
      · have hu : enterBox_onUpdate s p = { s with activeCamera := Cam.internal } := by
          simp only [enterBox_onUpdate]
          rw [if_pos ⟨hp, by rw [h]; exact ext_ne_int⟩]
        rw [List.foldl_cons, hu, enterBox_foldl_of_internal rest _ rfl,
          if_pos (any_cons_of_pos rest hp)]
      · have hu : enterBox_onUpdate s p = s := by
          simp only [enterBox_onUpdate]
          rw [if_neg]
          intro hc
          exact hp hc.1
        rw [List.foldl_cons, hu, ih s h, any_cons_of_neg rest hp]

lemma exitBox_foldl_of_external (samples : List ℚ) (s : Exp)
    (h : s.activeCamera = Cam.external) :
    samples.foldl exitBox_onUpdate s = s := by
  induction samples generalizing s with
  | nil => rfl
  | cons p rest ih =>
      have hu : exitBox_onUpdate s p = s := by
        simp only [exitBox_onUpdate]
        rw [if_neg]
        intro hc
        exact hc.2 h
      rw [List.foldl_cons, hu, ih s h]

lemma exitBox_foldl_of_internal (samples : List ℚ) (s : Exp)
    (h : s.activeCamera = Cam.internal) :
    samples.foldl exitBox_onUpdate s =
      (if samples.any (fun p => decide (p > 1/2)) then
        { s with activeCamera := Cam.external, controlsEnabled := true } else s) := by
  induction samples generalizing s with
  | nil => simp
  | cons p rest ih =>
      by_cases hp : p > 1/2
      · have hu : exitBox_onUpdate s p =
            { s with activeCamera := Cam.external, controlsEnabled := true } := by
          simp only [exitBox_onUpdate]
          rw [if_pos ⟨hp, by rw [h]; exact int_ne_ext⟩]
        rw [List.foldl_cons, hu, exitBox_foldl_of_external rest _ rfl,
          if_pos (any_cons_of_pos rest hp)]
      · have hu : exitBox_onUpdate s p = s := by
          simp only [exitBox_onUpdate]
          rw [if_neg]
          intro hc
          exact hp hc.1
        rw [List.foldl_cons, hu, ih s h, any_cons_of_neg rest hp]

/-- Claim C1 (amended): each transition operation is guarded by a single
flag, not by the full source-state precondition.  open() is a silent no-op
exactly when isBoxOpen (so from Open and from Inside); exitBox() is a
silent no-op exactly when not inside (so from Closed and from Open);
enterBox() is a silent no-op only when already Inside.  In each no-op case
the whole state — including the interaction flag that plays the role of
the transition lock — is unchanged.  Contrary to the original claim,
enterBox() invoked from Closed is not a no-op (see the counterexample). -/
theorem wrongState_guarded_noops :
    ∀ (s : Exp) (samples : List ℚ),
      (s.isBoxOpen = true → openRun s = s)
      ∧ (s.isInsideBox = false → exitBoxRun s samples = s)
      ∧ (s.isInsideBox = true → enterBoxRun s samples = s) := by
  intro s samples
  refine ⟨fun h => by simp [openRun, h],
          fun h => by simp [exitBoxRun, h],
          fun h => by simp [enterBoxRun, h]⟩

/-- Claim C1 (counterexample): from the Closed state (box not open, not
inside), enterBox() is not a no-op: its guard checks only isInsideBox, so
the camera tween runs and on completion the state is Inside. -/
theorem enterBox_from_closed_not_noop :
    initialState.isBoxOpen = false
    ∧ initialState.isInsideBox = false
    ∧ enterBoxRun initialState [1] ≠ initialState
    ∧ (enterBoxRun initialState [1]).isInsideBox = true
    ∧ (enterBoxRun initialState [1]).activeCamera = Cam.internal := by
  refine ⟨rfl, rfl, ?_, ?_, ?_⟩ <;>
    norm_num [initialState, enterBoxRun, enterBox_onStart, enterBox_onUpdate,
      enterBox_onComplete, ext_ne_int, Exp.mk.injEq]

/-- Claim C1 witness: the no-op guarantees instantiated at concrete wrong
source states. -/
theorem wrongState_guarded_noops_witness :
    openRun openState = openState
    ∧ exitBoxRun initialState [1] = initialState
    ∧ enterBoxRun insideState [1] = insideState :=
  ⟨(wrongState_guarded_noops openState [1]).1 rfl,
   (wrongState_guarded_noops initialState [1]).2.1 rfl,
   (wrongState_guarded_noops insideState [1]).2.2 (by rw [insideState_val])⟩

/-- Claim C2 (amended): open() has no in-flight lock; its guard checks only
isBoxOpen, which is still false when the second synchronous call runs, so
`open(); open();` from Closed creates two timelines, not one.  However the
final state after both timelines complete equals the state produced by the
first call alone, because the onStart/onComplete handlers are idempotent. -/
theorem open_double_call :
    ∀ s : Exp, s.isBoxOpen = false →
      openCalledTwiceTimelines s = 2 ∧ openRunBoth s = openRun s := by
  intro s h
  constructor
  · simp [openCalledTwiceTimelines, openTimelinesStarted, h]
  · simp [openRunBoth, openRun, h, open_onStart, open_onComplete]

/-- Claim C2 (counterexample): calling open() twice synchronously from the
Closed state creates two open timelines, refuting that exactly one
open-transition executes. -/
theorem open_double_call_counterexample :
    openCalledTwiceTimelines initialState = 2
    ∧ openCalledTwiceTimelines initialState ≠ 1 := by
  constructor <;>
    norm_num [initialState, openCalledTwiceTimelines, openTimelinesStarted]

/-- Claim C2 witness: the amended double-call behaviour at the concrete
initial (Closed) state. -/
theorem open_double_call_witness :
    openCalledTwiceTimelines initialState = 2
    ∧ openRunBoth initialState = openRun initialState :=
  open_double_call initialState rfl

/-- Claim C3 (amended): the active camera is always exactly one of the
external or internal camera, and during an enterBox (resp. exitBox)
transition started with the external (resp. internal) camera active, the
camera after any prefix of the progress samples is still the source camera
when every sample so far is at most 0.5, and is the target camera as soon
as some sample exceeds 0.5 — that is, it changes exactly once, at the
first progress sample with progress strictly greater than 0.5 (the source
tests `progress > 0.5`, so a sample exactly at 0.5 does not swap, contrary
to the original claim's progress ≥ 0.5). -/
theorem camera_swap_characterization :
    ∀ (s : Exp) (samples : List ℚ) (n : ℕ),
      (s.activeCamera = Cam.external →
        ((samples.take n).foldl enterBox_onUpdate (enterBox_onStart s)).activeCamera =
          (if (samples.take n).any (fun p => decide (p > 1/2))
            then Cam.internal else Cam.external))
      ∧ (s.activeCamera = Cam.internal →
        ((samples.take n).foldl exitBox_onUpdate (exitBox_onStart s)).activeCamera =
          (if (samples.take n).any (fun p => decide (p > 1/2))
            then Cam.external else Cam.internal))
      ∧ ((samples.foldl enterBox_onUpdate s).activeCamera = Cam.external
         ∨ (samples.foldl enterBox_onUpdate s).activeCamera = Cam.internal) := by
  intro s samples n
  refine ⟨?_, ?_, ?_⟩
  · intro h
    have h1 : (enterBox_onStart s).activeCamera = Cam.external := h
    rw [enterBox_foldl_of_external _ _ h1]
    by_cases hany : ((samples.take n).any (fun p => decide (p > 1/2))) = true
    · rw [if_pos hany, if_pos hany]
    · rw [if_neg hany, if_neg hany]
      exact h1
  · intro h
    have h1 : (exitBox_onStart s).activeCamera = Cam.internal := h
    rw [exitBox_foldl_of_internal _ _ h1]
    by_cases hany : ((samples.take n).any (fun p => decide (p > 1/2))) = true
    · rw [if_pos hany, if_pos hany]
    · rw [if_neg hany, if_neg hany]
      exact h1
  · cases hcam : (samples.foldl enterBox_onUpdate s).activeCamera
    · exact Or.inl rfl
    · exact Or.inr rfl

/-- Claim C3 (counterexample): a progress sample of exactly 0.5 satisfies
progress ≥ 0.5, yet the enterBox onUpdate handler does not swap the active
camera there, because the source comparison is strict. -/
theorem camera_swap_at_half_counterexample :
    ((1:ℚ)/2 ≥ 1/2)
    ∧ (enterBox_onUpdate (enterBox_onStart openState) (1/2)).activeCamera = Cam.external
    ∧ Cam.external ≠ Cam.internal := by
  refine ⟨le_refl _, ?_, ext_ne_int⟩
  rw [openState_val]
  norm_num [enterBox_onStart, enterBox_onUpdate]

/-- Claim C3 witness: the characterization instantiated for an enterBox
transition from the opened state and an exitBox transition from the inside
state, each over the sample list [3/5]. -/
theorem camera_swap_characterization_witness :
    ((([(3:ℚ)/5]).take 1).foldl enterBox_onUpdate (enterBox_onStart openState)).activeCamera =
      (if (([(3:ℚ)/5]).take 1).any (fun p => decide (p > 1/2))
        then Cam.internal else Cam.external)
    ∧ ((([(3:ℚ)/5]).take 1).foldl exitBox_onUpdate (exitBox_onStart insideState)).activeCamera =
      (if (([(3:ℚ)/5]).take 1).any (fun p => decide (p > 1/2))
        then Cam.external else Cam.internal) :=
  ⟨(camera_swap_characterization openState [3/5] 1).1 rfl,
   (camera_swap_characterization insideState [3/5] 1).2.1 (by rw [insideState_val])⟩

/-- Claim C7 (amended): when exitBox() runs from Inside, the orbit controls
are re-enabled at the first progress sample strictly past 0.5 — together
with the camera swap back to external, not on completion; on completion
isInsideBox is cleared (the state is Open, isBoxOpen being untouched) and
interaction is re-enabled, but no exitBox DOM event is ever dispatched by
the transition (the code has exitBox listeners but no emitter). -/
theorem exitBox_controls_and_completion :
    ∀ (s : Exp) (samples : List ℚ),
      s.isInsideBox = true → s.activeCamera = Cam.internal → s.controlsEnabled = false →
      (∀ n : ℕ,
        ((samples.take n).foldl exitBox_onUpdate (exitBox_onStart s)).controlsEnabled =
          (samples.take n).any (fun p => decide (p > 1/2)))
      ∧ (exitBoxRun s samples).isInsideBox = false
      ∧ (exitBoxRun s samples).isBoxOpen = s.isBoxOpen
      ∧ (exitBoxRun s samples).interactionEnabled = true
      ∧ (exitBoxRun s samples).events = s.events := by
  intro s samples hin hcam hctr
  have hstart : (exitBox_onStart s).activeCamera = Cam.internal := hcam
  have hrun : exitBoxRun s samples =
      exitBox_onComplete (samples.foldl exitBox_onUpdate (exitBox_onStart s)) := by
    simp [exitBoxRun, hin]
  refine ⟨?_, ?_, ?_, ?_, ?_⟩
  · intro n
    rw [exitBox_foldl_of_internal _ _ hstart]
    by_cases hany : ((samples.take n).any (fun p => decide (p > 1/2))) = true
    · rw [if_pos hany, hany]
    · rw [if_neg hany]
      simp only [Bool.not_eq_true] at hany
      rw [hany]
      exact hctr
  all_goals
    rw [hrun, exitBox_foldl_of_internal _ _ hstart]
    by_cases hany : (samples.any (fun p => decide (p > 1/2))) = true
    · rw [if_pos hany]
      rfl
    · rw [if_neg hany]
      rfl

/-- Claim C7 (counterexample): starting the exitBox transition from the
inside state, after the single progress sample 3/5 — strictly between the
midpoint and completion — the orbit controls are already re-enabled while
the transition has not completed (isInsideBox still set), refuting
"re-enabled only on completion"; and the completed run dispatches no
exitBox event at all, refuting "emitted exactly once". -/
theorem exitBox_controls_counterexample :
    insideState.isInsideBox = true
    ∧ (([(3:ℚ)/5]).foldl exitBox_onUpdate (exitBox_onStart insideState)).controlsEnabled = true
    ∧ (([(3:ℚ)/5]).foldl exitBox_onUpdate (exitBox_onStart insideState)).isInsideBox = true
    ∧ (exitBoxRun insideState [3/5, 1]).events = [] := by
  refine ⟨by rw [insideState_val], ?_, ?_, ?_⟩ <;>
    · rw [insideState_val]
      norm_num [exitBoxRun, exitBox_onStart, exitBox_onUpdate, exitBox_onComplete, int_ne_ext]

/-- The transition operations of boxAnimations that the input handlers can
invoke. -/
inductive Action
  | openBox
  | enterBox
  | exitBox
deriving DecidableEq

/-- Result of delivering one raw input event to a handler: the handler
routed a transition operation, silently ignored the input, or crashed with
a JavaScript TypeError. -/
inductive Outcome
  | routed (a : Action)
  | ignored
  | typeErrorThrown
deriving DecidableEq

/-- The canvas click handler of BoxExperience.setupEventListeners.
`modelBound` says whether the GLTF load callback has already bound
this.boxModel and this.boxAnimations; `hit` is the result of the ray cast
against the box model.  Before the model is bound,
`raycaster.intersectObject(this.boxModel, true)` dereferences undefined
and throws a TypeError. -/
def clickHandler (modelBound : Bool) (s : Exp) (hit : Bool) : Outcome :=
  if !s.interactionEnabled then Outcome.ignored
  else if !modelBound then Outcome.typeErrorThrown
  else if hit then
    if !s.isBoxOpen then Outcome.routed Action.openBox
    else if !s.isInsideBox then Outcome.routed Action.enterBox
    else Outcome.ignored
  else if s.isInsideBox then Outcome.routed Action.exitBox
  else Outcome.ignored

/-- The window keydown handler for the Space key
(BoxExperience.setupEventListeners): no interaction-enabled check and no
ray cast; every branch calls a method of this.boxAnimations, which is
undefined before the model is bound, so any Space press then throws. -/
def keydownSpace (modelBound : Bool) (s : Exp) : Outcome :=
  if !modelBound then Outcome.typeErrorThrown
  else if !s.isBoxOpen then Outcome.routed Action.openBox
  else if !s.isInsideBox then Outcome.routed Action.enterBox
  else Outcome.routed Action.exitBox

/-- ResponsiveHandler.handleTap: the same ray-cast routing as the click
handler, but wrapped in `if (this.boxExperience.boxModel)`, so a tap before
the model is bound is silently ignored; unlike the click path, there is no
interaction-enabled check here. -/
def handleTap (modelBound : Bool) (s : Exp) (hit : Bool) : Outcome :=
  if !modelBound then Outcome.ignored
  else if hit then
    if !s.isBoxOpen then Outcome.routed Action.openBox
    else if !s.isInsideBox then Outcome.routed Action.enterBox
    else Outcome.ignored
  else if s.isInsideBox then Outcome.routed Action.exitBox
  else Outcome.ignored

/-- Claim C4 (code bug): an activate input delivered before the 3D model
handle is bound is not screened out on the pointer-click or Space-keydown
paths: the click handler calls raycaster.intersectObject on the undefined
boxModel, and the keydown handler calls a method of the undefined
boxAnimations, so both throw a TypeError instead of being ignored.  Only
the touch-tap path guards on the model handle as the spec requires. -/
theorem activate_before_model_bound_throws :
    clickHandler false initialState true = Outcome.typeErrorThrown
    ∧ clickHandler false initialState false = Outcome.typeErrorThrown
    ∧ keydownSpace false initialState = Outcome.typeErrorThrown
    ∧ handleTap false initialState true = Outcome.ignored :=
  ⟨rfl, rfl, rfl, rfl⟩

/-- Claim C10: with the model bound, the Space key routes the transition
matching the current state flags in the source's cascade order — open()
when the box is not open, enterBox() when open but not inside, exitBox()
when open and inside — with no ray-cast hit test (keydownSpace takes no
hit argument at all), whereas the pointer-click and touch-tap paths route
open() and enterBox() only on a ray-cast hit, and exitBox() only on a miss
while inside. -/
theorem space_routes_without_hit_test :
    ∀ (s : Exp) (hit : Bool),
      (s.isBoxOpen = false → keydownSpace true s = Outcome.routed Action.openBox)
      ∧ (s.isBoxOpen = true → s.isInsideBox = false →
          keydownSpace true s = Outcome.routed Action.enterBox)
      ∧ (s.isBoxOpen = true → s.isInsideBox = true →
          keydownSpace true s = Outcome.routed Action.exitBox)
      ∧ (clickHandler true s hit = Outcome.routed Action.openBox → hit = true)
      ∧ (clickHandler true s hit = Outcome.routed Action.enterBox → hit = true)
      ∧ (clickHandler true s hit = Outcome.routed Action.exitBox →
          hit = false ∧ s.isInsideBox = true)
      ∧ (handleTap true s hit = Outcome.routed Action.openBox → hit = true)
      ∧ (handleTap true s hit = Outcome.routed Action.enterBox → hit = true)
      ∧ (handleTap true s hit = Outcome.routed Action.exitBox →
          hit = false ∧ s.isInsideBox = true) := by
  intro s hit
  obtain ⟨bo, bi, ie, ce, il, cam, ev⟩ := s
  cases bo <;> cases bi <;> cases ie <;> cases hit <;>
    simp [keydownSpace, clickHandler, handleTap]

/-- Claim C10 witness: the Space routing at the three concrete reachable
states, and the click-path hit requirements at the initial state. -/
theorem space_routes_without_hit_test_witness :
    keydownSpace true initialState = Outcome.routed Action.openBox
    ∧ keydownSpace true openState = Outcome.routed Action.enterBox
    ∧ keydownSpace true insideState = Outcome.routed Action.exitBox :=
  ⟨(space_routes_without_hit_test initialState true).1 rfl,
   (space_routes_without_hit_test openState true).2.1 rfl rfl,
   (space_routes_without_hit_test insideState true).2.2.1
     (by rw [insideState_val]) (by rw [insideState_val])⟩

/-- Render quality levels.  The adaptive controller of ResponsiveHandler
ranges over low/medium/high; ultra occurs in the repository only as a
PerformanceOptimizer preset name, and is representable here because the
source stores the level as a plain string. -/
inductive QLevel
  | low
  | medium
  | high
  | ultra
deriving DecidableEq

/-- The state of the adaptive quality controller of ResponsiveHandler:
this.qualityLevel and this.fpsMonitor.lowFpsCount. -/
structure QualityState where
  qualityLevel : QLevel
  lowFpsCount : Nat
deriving DecidableEq

/-- ResponsiveHandler.adjustQualityBasedOnPerformance: one evaluation of
the adaptive quality controller against the smoothed fps value
this.fpsMonitor.avgFps, given the device flags this.isMobile and
this.isTablet. -/
def adjustQualityBasedOnPerformance (isMobile isTablet : Bool) (fps : ℚ)
    (st : QualityState) : QualityState :=
  if fps < 30 then
    if st.lowFpsCount + 1 ≥ 3 then
      { qualityLevel :=
          if st.qualityLevel = QLevel.high then QLevel.medium
          else if st.qualityLevel = QLevel.medium then QLevel.low
          else st.qualityLevel,
        lowFpsCount := 0 }
    else { st with lowFpsCount := st.lowFpsCount + 1 }
  else if fps > 55 ∧ st.qualityLevel ≠ QLevel.high then
    { qualityLevel :=
        if st.qualityLevel = QLevel.low ∧ isMobile = false then QLevel.medium
        else if st.qualityLevel = QLevel.medium ∧ isMobile = false ∧ isTablet = false
          then QLevel.high
        else st.qualityLevel,
      lowFpsCount := 0 }
  else { st with lowFpsCount := 0 }

/-- One-step downgrade chain actually implemented by the controller:
high→medium→low, no-op on low and on ultra (ultra matches no branch). -/
def downgradeOne : QLevel → QLevel
  | QLevel.high => QLevel.medium
  | QLevel.medium => QLevel.low
  | l => l

/-- One-step upgrade chain on a desktop device (neither mobile nor
tablet): low→medium→high, no-op on high and on ultra. -/
def upgradeOneDesktop : QLevel → QLevel
  | QLevel.low => QLevel.medium
  | QLevel.medium => QLevel.high
  | l => l

/-- Claim C5 (amended): on a low window (fps below 30) the controller
increments the consecutive-low-window counter and downgrades exactly one
step only when the incremented counter reaches 3, resetting the counter;
the downgrade chain is high→medium→low with a no-op at low (the counter is
still reset).  The controller's top level is high, not ultra: feeding
[20,20,20] at high gives exactly one downgrade, to medium, after the third
low window and not before, while a state at ultra is left unchanged. -/
theorem lowfps_three_window_downgrade :
    (∀ (m t : Bool) (fps : ℚ) (st : QualityState), fps < 30 →
      (st.lowFpsCount + 1 < 3 →
        adjustQualityBasedOnPerformance m t fps st =
          { qualityLevel := st.qualityLevel, lowFpsCount := st.lowFpsCount + 1 })
      ∧ (st.lowFpsCount + 1 ≥ 3 →
        adjustQualityBasedOnPerformance m t fps st =
          { qualityLevel := downgradeOne st.qualityLevel, lowFpsCount := 0 }))
    ∧ adjustQualityBasedOnPerformance false false 20 ⟨QLevel.high, 0⟩ = ⟨QLevel.high, 1⟩
    ∧ adjustQualityBasedOnPerformance false false 20 ⟨QLevel.high, 1⟩ = ⟨QLevel.high, 2⟩
    ∧ adjustQualityBasedOnPerformance false false 20 ⟨QLevel.high, 2⟩ = ⟨QLevel.medium, 0⟩
    ∧ adjustQualityBasedOnPerformance false false 20 ⟨QLevel.low, 2⟩ = ⟨QLevel.low, 0⟩ := by
  refine ⟨?_, ?_, ?_, ?_, ?_⟩
  · intro m t fps st hf
    obtain ⟨ql, c⟩ := st
    constructor
    · intro hc
      have hc2 : c + 1 < 3 := hc
      simp only [adjustQualityBasedOnPerformance]
      rw [if_pos hf, if_neg (show ¬(c + 1 ≥ 3) by omega)]
    · intro hc
      have hc2 : c + 1 ≥ 3 := hc
      simp only [adjustQualityBasedOnPerformance]
      rw [if_pos hf, if_pos (show c + 1 ≥ 3 from hc2)]
      cases ql <;> rfl
  all_goals rfl

/-- Claim C5 (counterexample): at quality level ultra — which the claim
takes as the controller's top level — three consecutive low windows at
fps 20 leave the level at ultra instead of downgrading it to high: the
downgrade chain only matches high and medium. -/
theorem ultra_three_low_windows_counterexample :
    adjustQualityBasedOnPerformance false false 20
      (adjustQualityBasedOnPerformance false false 20
        (adjustQualityBasedOnPerformance false false 20 ⟨QLevel.ultra, 0⟩)) =
      ⟨QLevel.ultra, 0⟩
    ∧ QLevel.ultra ≠ QLevel.high :=
  ⟨rfl, fun h => QLevel.noConfusion h⟩

/-- Claim C5 witness: the general low-window behaviour instantiated at
fps 20 with counter 0 (increment branch) and counter 2 (downgrade
branch). -/
theorem lowfps_three_window_downgrade_witness :
    adjustQualityBasedOnPerformance false false 20 ⟨QLevel.high, 0⟩ =
      { qualityLevel := QLevel.high, lowFpsCount := 1 }
    ∧ adjustQualityBasedOnPerformance false false 20 ⟨QLevel.high, 2⟩ =
      { qualityLevel := downgradeOne QLevel.high, lowFpsCount := 0 } :=
  ⟨(lowfps_three_window_downgrade.1 false false 20 ⟨QLevel.high, 0⟩ (by norm_num)).1
      (by norm_num),
   (lowfps_three_window_downgrade.1 false false 20 ⟨QLevel.high, 2⟩ (by norm_num)).2
      (by norm_num)⟩

/-- Claim C6 (amended): on a high window (fps above 55) the counter is
reset to 0 and, on a desktop device, the quality is upgraded exactly one
step immediately (low→medium→high, no-op at the top); but the device
gating is stricter than a never-past-medium ceiling: a mobile device is
never upgraded at all — not even from low to medium — and a tablet is
upgraded only from low to medium. -/
theorem highfps_upgrade :
    ∀ (m t : Bool) (fps : ℚ) (st : QualityState), fps > 55 →
      ((adjustQualityBasedOnPerformance m t fps st).lowFpsCount = 0)
      ∧ (m = false → t = false →
          adjustQualityBasedOnPerformance m t fps st =
            { qualityLevel := upgradeOneDesktop st.qualityLevel, lowFpsCount := 0 })
      ∧ (m = true →
          (adjustQualityBasedOnPerformance m t fps st).qualityLevel = st.qualityLevel)
      ∧ (m = false → t = true →
          (adjustQualityBasedOnPerformance m t fps st).qualityLevel =
            (if st.qualityLevel = QLevel.low then QLevel.medium
              else st.qualityLevel)) := by
  intro m t fps st hf
  obtain ⟨ql, c⟩ := st
  have hn : ¬fps < 30 := by linarith
  refine ⟨?_, ?_, ?_, ?_⟩ <;>
    cases ql <;> cases m <;> cases t <;>
      simp [adjustQualityBasedOnPerformance, hn, hf, upgradeOneDesktop]

/-- Claim C6 (counterexample): a mobile device at quality low with fps 60
is not upgraded at all, although the claimed medium ceiling for low-power
devices would allow the one-step upgrade low→medium. -/
theorem mobile_no_upgrade_counterexample :
    adjustQualityBasedOnPerformance true false 60 ⟨QLevel.low, 0⟩ = ⟨QLevel.low, 0⟩
    ∧ QLevel.low ≠ QLevel.medium := by
  refine ⟨?_, fun h => QLevel.noConfusion h⟩
  norm_num [adjustQualityBasedOnPerformance]

/-- Claim C6 witness: the high-window behaviour instantiated at fps 60 on
desktop (one-step upgrade low→medium) and on mobile (no upgrade). -/
theorem highfps_upgrade_witness :
    adjustQualityBasedOnPerformance false false 60 ⟨QLevel.low, 2⟩ =
      { qualityLevel := upgradeOneDesktop QLevel.low, lowFpsCount := 0 }
    ∧ (adjustQualityBasedOnPerformance true false 60 ⟨QLevel.low, 2⟩).qualityLevel =
      QLevel.low :=
  ⟨(highfps_upgrade false false 60 ⟨QLevel.low, 2⟩ (by norm_num)).2.1 rfl rfl,
   (highfps_upgrade true false 60 ⟨QLevel.low, 2⟩ (by norm_num)).2.2.1 rfl⟩

/-- Geometry variants precomputed by PerformanceOptimizer.setupModelLOD:
the original geometry plus the medium and low simplifications. -/
inductive GeoVariant
  | full
  | medium
  | low
deriving DecidableEq

/-- One entry of PerformanceOptimizer's cullableObjects list:
object.parent (still attached to the scene), userData.originalVisible
(captured once in setupCulling), object.visible, the presence flags of
userData.originalGeometry / mediumGeometry / lowGeometry, and the geometry
variant currently assigned to object.geometry. -/
structure CullObject where
  hasParent : Bool
  originalVisible : Bool
  visible : Bool
  hasOriginalGeometry : Bool
  hasMediumGeometry : Bool
  hasLowGeometry : Bool
  geometry : GeoVariant
deriving DecidableEq

/-- The per-object body of PerformanceOptimizer.updateCulling.  `inFrustum`
stands for the result of frustum.intersectsSphere on the world-space
bounding sphere, and `distance` for
activeCamera.position.distanceTo(object.position). -/
def updateCullingObject (inFrustum : Bool) (distance : ℚ) (o : CullObject) : CullObject :=
  if o.hasParent = false then o
  else
    let o1 := { o with visible := inFrustum && o.originalVisible }
    if o1.visible = true ∧ o1.hasOriginalGeometry = true then
      if distance > 10 ∧ o1.hasLowGeometry = true then
        { o1 with geometry := GeoVariant.low }
      else if distance > 5 ∧ o1.hasMediumGeometry = true then
        { o1 with geometry := GeoVariant.medium }
      else { o1 with geometry := GeoVariant.full }
    else o1

/-- A cullable object that is attached, baseline-visible and has all three
precomputed geometry variants. -/
def sampleCullObject : CullObject :=
  { hasParent := true
    originalVisible := true
    visible := true
    hasOriginalGeometry := true
    hasMediumGeometry := true
    hasLowGeometry := true
    geometry := GeoVariant.full }

/-- Claim C8: for every cullable object still attached to the scene, the
visibility written by updateCulling is exactly the conjunction of the
frustum test and the baseline visibility flag captured in setupCulling —
in particular an object whose baseline flag is false stays hidden even
when its bounding sphere is inside the frustum. -/
theorem culling_visibility_conjunction :
    ∀ (inFrustum : Bool) (distance : ℚ) (o : CullObject), o.hasParent = true →
      ((updateCullingObject inFrustum distance o).visible
        = (inFrustum && o.originalVisible))
      ∧ (o.originalVisible = false →
        (updateCullingObject inFrustum distance o).visible = false) := by
  intro f d o h
  obtain ⟨hp, ov, vis, hog, hmg, hlg, g⟩ := o
  subst h
  constructor
  · simp only [updateCullingObject]
    rw [if_neg (by simp)]
    split_ifs <;> rfl
  · intro hov
    subst hov
    simp only [updateCullingObject]
    rw [if_neg (by simp)]
    split_ifs <;> simp

/-- Claim C8 witness: the visibility conjunction at a concrete hidden
object inside the frustum. -/
theorem culling_visibility_conjunction_witness :
    ((updateCullingObject true 3 { sampleCullObject with originalVisible := false }).visible
      = (true && false))
    ∧ ((updateCullingObject true 3 { sampleCullObject with originalVisible := false }).visible
      = false) :=
  ⟨(culling_visibility_conjunction true 3
      { sampleCullObject with originalVisible := false } rfl).1,
   (culling_visibility_conjunction true 3
      { sampleCullObject with originalVisible := false } rfl).2 rfl⟩

/-- Claim C9: for a visible, attached cullable object with all precomputed
variants, the variant written by updateCulling is a pure function of the
camera distance with thresholds far=10 and near=5: low for d over 10,
medium for d over 5 and at most 10, full otherwise; at distances 11, 7 and
2 it selects low, medium and full, and because the selection is stateless,
crossing back below a threshold restores the richer variant. -/
theorem lod_distance_selection :
    (∀ (d : ℚ) (o : CullObject), o.hasParent = true → o.originalVisible = true →
      o.hasOriginalGeometry = true → o.hasMediumGeometry = true → o.hasLowGeometry = true →
      ((updateCullingObject true d o).geometry =
        (if d > 10 then GeoVariant.low
          else if d > 5 then GeoVariant.medium else GeoVariant.full))
      ∧ (∀ d2 : ℚ, (updateCullingObject true d2 (updateCullingObject true d o)).geometry
          = (updateCullingObject true d2 o).geometry))
    ∧ (updateCullingObject true 11 sampleCullObject).geometry = GeoVariant.low
    ∧ (updateCullingObject true 7 sampleCullObject).geometry = GeoVariant.medium
    ∧ (updateCullingObject true 2 sampleCullObject).geometry = GeoVariant.full
    ∧ (updateCullingObject true 7
        (updateCullingObject true 11 sampleCullObject)).geometry = GeoVariant.medium
    ∧ (updateCullingObject true 2
        (updateCullingObject true 7 sampleCullObject)).geometry = GeoVariant.full := by
  have hchar : ∀ (d : ℚ) (o : CullObject), o.hasParent = true → o.originalVisible = true →
      o.hasOriginalGeometry = true → o.hasMediumGeometry = true → o.hasLowGeometry = true →
      (updateCullingObject true d o).geometry =
        (if d > 10 then GeoVariant.low
          else if d > 5 then GeoVariant.medium else GeoVariant.full) := by
    intro d o h1 h2 h3 h4 h5
    obtain ⟨hp, ov, vis, hog, hmg, hlg, g⟩ := o
    subst h1; subst h2; subst h3; subst h4; subst h5
    simp only [updateCullingObject]
    rw [if_neg (by simp)]
    by_cases h10 : d > 10
    · rw [if_pos (by simp), if_pos ⟨h10, by trivial⟩, if_pos h10]
    · rw [if_pos (by simp), if_neg (fun hc => h10 hc.1), if_neg h10]
      by_cases h5d : d > 5
      · rw [if_pos ⟨h5d, by trivial⟩, if_pos h5d]
      · rw [if_neg (fun hc => h5d hc.1), if_neg h5d]
  have hpreserve : ∀ (d : ℚ) (o : CullObject), o.hasParent = true →
      o.originalVisible = true → o.hasOriginalGeometry = true →
      o.hasMediumGeometry = true → o.hasLowGeometry = true →
      (updateCullingObject true d o).hasParent = true
      ∧ (updateCullingObject true d o).originalVisible = true
      ∧ (updateCullingObject true d o).hasOriginalGeometry = true
      ∧ (updateCullingObject true d o).hasMediumGeometry = true
      ∧ (updateCullingObject true d o).hasLowGeometry = true := by
    intro d o h1 h2 h3 h4 h5
    obtain ⟨hp, ov, vis, hog, hmg, hlg, g⟩ := o
    subst h1; subst h2; subst h3; subst h4; subst h5
    simp only [updateCullingObject]
    rw [if_neg (by simp)]
    split_ifs <;> simp
  refine ⟨?_, ?_, ?_, ?_, ?_, ?_⟩
  · intro d o h1 h2 h3 h4 h5
    refine ⟨hchar d o h1 h2 h3 h4 h5, ?_⟩
    intro d2
    obtain ⟨k1, k2, k3, k4, k5⟩ := hpreserve d o h1 h2 h3 h4 h5
    rw [hchar d2 _ k1 k2 k3 k4 k5, hchar d2 o h1 h2 h3 h4 h5]
  · rw [hchar 11 sampleCullObject rfl rfl rfl rfl rfl]
    norm_num
  · rw [hchar 7 sampleCullObject rfl rfl rfl rfl rfl]
    norm_num
  · rw [hchar 2 sampleCullObject rfl rfl rfl rfl rfl]
    norm_num
  · obtain ⟨k1, k2, k3, k4, k5⟩ :=
      hpreserve 11 sampleCullObject rfl rfl rfl rfl rfl
    rw [hchar 7 _ k1 k2 k3 k4 k5]
    norm_num
  · obtain ⟨k1, k2, k3, k4, k5⟩ :=
      hpreserve 7 sampleCullObject rfl rfl rfl rfl rfl
    rw [hchar 2 _ k1 k2 k3 k4 k5]
    norm_num

/-- Claim C9 witness: the distance characterization applied at distance 11
to the concrete sample object. -/
theorem lod_distance_selection_witness :
    (updateCullingObject true 11 sampleCullObject).geometry =
      (if (11:ℚ) > 10 then GeoVariant.low
        else if (11:ℚ) > 5 then GeoVariant.medium else GeoVariant.full) :=
  (lod_distance_selection.1 11 sampleCullObject rfl rfl rfl rfl rfl).1

/-- Claim C7 witness: the amended exit behaviour instantiated at the
concrete inside state with samples [3/5, 1]. -/
theorem exitBox_controls_and_completion_witness :
    (∀ n : ℕ,
      ((([(3:ℚ)/5, 1]).take n).foldl exitBox_onUpdate (exitBox_onStart insideState)).controlsEnabled =
        (([(3:ℚ)/5, 1]).take n).any (fun p => decide (p > 1/2)))
    ∧ (exitBoxRun insideState [3/5, 1]).isInsideBox = false
    ∧ (exitBoxRun insideState [3/5, 1]).isBoxOpen = insideState.isBoxOpen
    ∧ (exitBoxRun insideState [3/5, 1]).interactionEnabled = true
    ∧ (exitBoxRun insideState [3/5, 1]).events = insideState.events :=
  exitBox_controls_and_completion insideState [3/5, 1]
    (by rw [insideState_val]) (by rw [insideState_val]) (by rw [insideState_val])

end JJBox
